import Mathlib

/-!
Shallow embedding of the repository: the GCD utility of Task 1
(src/Task 1/src/gcd.rs) and the address validator of Task 2
(src/Task 2/src/address.rs, src/Task 2/src/addresses.rs).

Rust Strings are modelled as Lean String, Vec as List, i32 as Int with
explicit range hypotheses where the claim speaks of i32, and a Rust panic
as the value none of an Option-typed result.
-/

/-! ## Data model of Task 2 (address.rs) -/

/-- The constant NOT_AVAILABLE of address.rs. -/
def NOT_AVAILABLE : String := "Not available"

/-- The struct CodeAndName of address.rs: a code and a name, both strings.
Type, Country and ProvinceOrState are aliases of it in the source. -/
structure CodeAndName where
  code : String
  name : String
deriving Repr, DecidableEq

/-- The struct LineDetail of address.rs: two free-text address lines. -/
structure LineDetail where
  line1 : String
  line2 : String
deriving Repr, DecidableEq

/-- The struct Address of address.rs. -/
structure Address where
  id : String
  address_type : CodeAndName
  line_detail : LineDetail
  province_or_state : CodeAndName
  country : CodeAndName
  city_or_town : String
  postal_code : String
  suburb_or_district : String
  last_updated : String
deriving Repr, DecidableEq

/-- Country::is_valid_country of address.rs: true if the name is non-empty.
A Rust String is empty exactly when it equals the empty string. -/
def CodeAndName.is_valid_country (c : CodeAndName) : Bool :=
  !(c.name == "")

/-- LineDetail::is_valid_line_detail of address.rs: at least one line is
non-empty. -/
def LineDetail.is_valid_line_detail (ld : LineDetail) : Bool :=
  !(ld.line1 == "") || !(ld.line2 == "")

/-- The Display impl for LineDetail of address.rs. -/
def LineDetail.display (ld : LineDetail) : String :=
  let ml1 := ld.line1 == ""
  let ml2 := ld.line2 == ""
  if ml1 && ml2 then NOT_AVAILABLE
  else if ml1 then ld.line2
  else if ml2 then ld.line1
  else ld.line1 ++ ", " ++ ld.line2

/-- Address::has_valid_province of address.rs: matches on the country code;
for "ZA" the province name must be non-empty, any other code passes. -/
def Address.has_valid_province (a : Address) : Bool :=
  match a.country.code with
  | "ZA" => !(a.province_or_state.name == "")
  | _ => true

/-- Address::str_or of address.rs: the input string if non-empty, otherwise
the default. -/
def Address.str_or (s d : String) : String :=
  match s with
  | "" => d
  | _ => s

/-- The code point ranges of the Unicode general category Nd (decimal
number), Unicode version 14.0: the set of characters the regex crate
matches for the class of digits, which is Unicode-aware by default. -/
def ndRanges : List (Nat × Nat) :=
  [(48, 57), (1632, 1641), (1776, 1785), (1984, 1993), (2406, 2415), 
   (2534, 2543), (2662, 2671), (2790, 2799), (2918, 2927), (3046, 3055), 
   (3174, 3183), (3302, 3311), (3430, 3439), (3558, 3567), (3664, 3673), 
   (3792, 3801), (3872, 3881), (4160, 4169), (4240, 4249), (6112, 6121), 
   (6160, 6169), (6470, 6479), (6608, 6617), (6784, 6793), (6800, 6809), 
   (6992, 7001), (7088, 7097), (7232, 7241), (7248, 7257), (42528, 42537), 
   (43216, 43225), (43264, 43273), (43472, 43481), (43504, 43513), 
   (43600, 43609), (44016, 44025), (65296, 65305), (66720, 66729), 
   (68912, 68921), (69734, 69743), (69872, 69881), (69942, 69951), 
   (70096, 70105), (70384, 70393), (70736, 70745), (70864, 70873), 
   (71248, 71257), (71360, 71369), (71472, 71481), (71904, 71913), 
   (72016, 72025), (72784, 72793), (73040, 73049), (73120, 73129), 
   (92768, 92777), (92864, 92873), (93008, 93017), (120782, 120831), 
   (123200, 123209), (123632, 123641), (125264, 125273), (130032, 130041)]

/-- A character of the Unicode general category Nd, that is a character the
digit class of the regex crate matches. This includes the ASCII digits 0-9
as its first range and the decimal digits of the other scripts. -/
def isUnicodeDigit (c : Char) : Bool :=
  ndRanges.any (fun r => r.fst ≤ c.toNat && c.toNat ≤ r.snd)

/-- Address::is_valid_postal_code of address.rs. The source matches the
string against the regular expression pattern of one-or-more digits anchored
at both ends, via the regex crate, whose digit class is Unicode-aware by
default and matches the category Nd; the match succeeds exactly when the
string is non-empty and every character is such a decimal digit. -/
def Address.is_valid_postal_code (s : String) : Bool :=
  !(s == "") && s.data.all (fun c => isUnicodeDigit c)

/-- Address::validate of address.rs: pushes one fixed message for each of
the four checks that fails, in source order. -/
def Address.validate (a : Address) : List String :=
  (if !a.has_valid_province then
    ["You must include a province if your country is ZA"] else [])
  ++ (if !a.country.is_valid_country then
    ["You must include a country"] else [])
  ++ (if !a.line_detail.is_valid_line_detail then
    ["You must include valid address details (line 1 and/or 2 must be filled in)"] else [])
  ++ (if !(Address.is_valid_postal_code a.postal_code) then
    ["You must include a valid postal code"] else [])

/-- Address::is_valid of address.rs: conjunction of the four checks. -/
def Address.is_valid (a : Address) : Bool :=
  a.has_valid_province
    && a.country.is_valid_country
    && a.line_detail.is_valid_line_detail
    && Address.is_valid_postal_code a.postal_code

/-- The Display impl for Address of address.rs, concatenated exactly as the
source builds it from its format fragments. -/
def Address.display (a : Address) : String :=
  (a.address_type.name ++ ": ")
  ++ (a.line_detail.display ++ " ")
  ++ ("- " ++ Address.str_or a.city_or_town NOT_AVAILABLE ++ " ")
  ++ ("- " ++ Address.str_or a.province_or_state.name NOT_AVAILABLE ++ " ")
  ++ ("- " ++ Address.str_or a.postal_code NOT_AVAILABLE ++ " ")
  ++ ("- " ++ Address.str_or a.country.name NOT_AVAILABLE)

/-- Rendering of a Vec of string slices by the Rust Debug formatter, as
used by the format string of Addresses::validate_addresses: the elements
are double-quoted and joined by a comma and space inside square brackets.
The four possible validation messages contain no character that the Debug
formatter escapes. -/
def fmtDebugList (l : List String) : String :=
  "[" ++ String.intercalate ", " (l.map (fun s => "\"" ++ s ++ "\"")) ++ "]"

/-- The struct Addresses of addresses.rs: an ordered collection of
Address records. -/
structure Addresses where
  addresses : List Address

/-- Addresses::validate_addresses of addresses.rs: for each address in
order, if validate is non-empty, push the formatted error line. -/
def Addresses.validate_addresses (c : Addresses) : List String :=
  c.addresses.foldl
    (fun err_strings addr =>
      let errs := addr.validate
      if !errs.isEmpty then
        err_strings ++
          ["Address for ID: " ++ addr.id ++
            " is invalid. Validation errors: " ++ fmtDebugList errs]
      else err_strings)
    []

/-! ## Spec-side definitions used for refinement statements -/

/-- The four checks of an Address paired with their messages, in the fixed
order the spec gives: province-for-ZA, country-non-empty,
line-detail-non-empty, postal-code-numeric. -/
def Address.checks (a : Address) : List (Bool × String) :=
  [(a.has_valid_province, "You must include a province if your country is ZA"),
   (a.country.is_valid_country, "You must include a country"),
   (a.line_detail.is_valid_line_detail,
     "You must include valid address details (line 1 and/or 2 must be filled in)"),
   (Address.is_valid_postal_code a.postal_code, "You must include a valid postal code")]

/-- Validation as the spec words it: run the four checks in fixed order and
collect the message of each check that fails, in that same order. -/
def Address.validateSpec (a : Address) : List String :=
  a.checks.filterMap (fun p => if p.fst = false then some p.snd else none)

/-! ## The GCD utility of Task 1 (gcd.rs)

The i32 values are modelled as Int with explicit range hypotheses; the
value of i32 MIN is -2147483648. A Rust panic is modelled as none. The Rust
remainder operator on i32 is truncated remainder Int.tmod; it panics when
the divisor is zero and when the operands are i32 MIN and -1, since that
remainder computation overflows; the loop of calculate_gcd tests the
divisor against zero itself, so only the overflow panic remains. -/

/-- The value of i32 MIN, that is -2 to the power 31. -/
def i32Min : Int := -2147483648

/-- The loop of calculate_gcd in gcd.rs: while b is non-zero, replace
(a, b) by (b, a mod b); none models the panic of the remainder operator at
i32 MIN mod -1. -/
def gcdLoop (a b : Int) : Option Int :=
  if hb : b = 0 then some a
  else if hm : a = i32Min ∧ b = -1 then none
  else gcdLoop b (a.tmod b)
termination_by b.natAbs
decreasing_by
  have h : (Int.tmod a b).natAbs = a.natAbs % b.natAbs := by
    cases a <;> cases b <;> simp only [Int.tmod, Int.natAbs_neg] <;> rfl
  have hb0 : 0 < b.natAbs := Int.natAbs_pos.mpr hb
  simp only [h]
  exact Nat.mod_lt _ hb0

/-- calculate_gcd of gcd.rs: swap the operands when a is less than b, then
run the swap-then-mod loop. -/
def calculate_gcd (a b : Int) : Option Int :=
  if a < b then gcdLoop b a else gcdLoop a b

/-- calculate_gcd_array of gcd.rs: none of the outer Option models a panic
of a gcd step; some none models the Rust None returned on an empty array;
the fold starts from the first element as seed and runs over all elements,
the first one included. -/
def calculate_gcd_array (ints : List Int) : Option (Option Int) :=
  match ints with
  | [] => some none
  | x :: _ => Option.map some (List.foldlM calculate_gcd x ints)

/-- The fold of the spec words: fold gcd over the elements, carrying the
running result, stopping with none when a gcd step panics. -/
def gcdFoldSpec (res : Int) : List Int → Option Int
  | [] => some res
  | i :: rest =>
    match calculate_gcd res i with
    | some r => gcdFoldSpec r rest
    | none => none

/-! ## Fixture addresses

Modelled from the spec: the file addresses.json of Task 2 is not under
src/; the spec describes its three fixture addresses (one fully valid, one
missing line detail, one ZA address missing province) and the test
expectations of address.rs and addresses.rs pin their visible fields. -/

/-- Modelled from the spec: the first fixture address of addresses.json,
fully valid. -/
def fixtureAddress1 : Address :=
  { id := "1"
    address_type := { code := "1", name := "Physical Address" }
    line_detail := { line1 := "Address 1", line2 := "Line 2" }
    province_or_state := { code := "EC", name := "Eastern Cape" }
    country := { code := "ZA", name := "South Africa" }
    city_or_town := "City 1"
    postal_code := "1234"
    suburb_or_district := ""
    last_updated := "2017-06-21T00:00:00.000Z" }

/-- Modelled from the spec: the second fixture address of addresses.json,
with both address lines empty. -/
def fixtureAddress2 : Address :=
  { id := "2"
    address_type := { code := "2", name := "Postal Address" }
    line_detail := { line1 := "", line2 := "" }
    province_or_state := { code := "", name := "" }
    country := { code := "LB", name := "Lebanon" }
    city_or_town := "City 2"
    postal_code := "2345"
    suburb_or_district := ""
    last_updated := "2017-06-21T00:00:00.000Z" }

/-- Modelled from the spec: the third fixture address of addresses.json, a
ZA address with an empty province name. -/
def fixtureAddress3 : Address :=
  { id := "3"
    address_type := { code := "5", name := "Business Address" }
    line_detail := { line1 := "Address 3", line2 := "" }
    province_or_state := { code := "", name := "" }
    country := { code := "ZA", name := "South Africa" }
    city_or_town := "City 3"
    postal_code := "3456"
    suburb_or_district := ""
    last_updated := "2018-12-26T00:00:00.000Z" }

/-! ## Theorems -/

/-- C1: is_valid is true exactly when validate returns the empty list; both
are determined by the same four checks. -/
theorem address_is_valid_iff_validate_empty (a : Address) :
    a.is_valid = true ↔ a.validate = [] := by
  unfold Address.is_valid Address.validate
  cases a.has_valid_province <;>
    cases CodeAndName.is_valid_country a.country <;>
    cases LineDetail.is_valid_line_detail a.line_detail <;>
    cases Address.is_valid_postal_code a.postal_code <;> simp

/-- C1 witness: the fully valid fixture address validates to the empty
list by the equivalence. -/
theorem address_is_valid_iff_validate_empty_witness :
    fixtureAddress1.validate = [] :=
  (address_is_valid_iff_validate_empty fixtureAddress1).mp (by decide)

/-- C2: validate agrees with running the four checks in the fixed spec
order and collecting the message of each failing check in that order, and
it is empty exactly when all four checks pass. -/
theorem address_validate_follows_spec_order (a : Address) :
    a.validate = a.validateSpec ∧
      (a.validate = [] ↔
        (a.has_valid_province = true ∧
          CodeAndName.is_valid_country a.country = true ∧
          LineDetail.is_valid_line_detail a.line_detail = true ∧
          Address.is_valid_postal_code a.postal_code = true)) := by
  unfold Address.validate Address.validateSpec Address.checks
  cases a.has_valid_province <;>
    cases CodeAndName.is_valid_country a.country <;>
    cases LineDetail.is_valid_line_detail a.line_detail <;>
    cases Address.is_valid_postal_code a.postal_code <;>
    simp [List.filterMap_cons]

/-- C2 witness: the spec-ordered check list and validate agree on the
fixture address that fails only the province check. -/
theorem address_validate_follows_spec_order_witness :
    fixtureAddress3.validate = fixtureAddress3.validateSpec :=
  (address_validate_follows_spec_order fixtureAddress3).1

/-- C10: the list validate returns is an ordered sublist of the four fixed
messages, has no duplicates, and has length at most four. -/
theorem validate_messages_sublist (a : Address) :
    List.Sublist a.validate
        ["You must include a province if your country is ZA",
         "You must include a country",
         "You must include valid address details (line 1 and/or 2 must be filled in)",
         "You must include a valid postal code"] ∧
      a.validate.Nodup ∧ a.validate.length ≤ 4 := by
  have h : List.Sublist a.validate
      (["You must include a province if your country is ZA"] ++
        ["You must include a country"] ++
        ["You must include valid address details (line 1 and/or 2 must be filled in)"] ++
        ["You must include a valid postal code"]) := by
    unfold Address.validate
    apply List.Sublist.append
    apply List.Sublist.append
    apply List.Sublist.append
    all_goals (split <;> first | exact List.Sublist.refl _ | exact List.nil_sublist _)
  exact ⟨h, List.Nodup.sublist h (by decide), h.length_le⟩

/-- C6: has_valid_province is true when the country code is empty or
different from ZA, and false for a ZA address with an empty province. -/
theorem has_valid_province_za_rule (a : Address) :
    (a.country.code = "" ∨ a.country.code ≠ "ZA" → a.has_valid_province = true) ∧
      (a.country.code = "ZA" → a.province_or_state.name = "" →
        a.has_valid_province = false) := by
  constructor
  · intro h
    unfold Address.has_valid_province
    split
    · rename_i heq
      rcases h with h | h
      · rw [heq] at h; exact absurd h (by decide)
      · exact absurd heq h
    · rfl
  · intro hza hn
    unfold Address.has_valid_province
    split
    · rw [hn]; rfl
    · rename_i hne
      exact absurd hza hne

/-- C6 witness: the non-ZA fixture passes the province check and the ZA
fixture with an empty province fails it. -/
theorem has_valid_province_za_rule_witness :
    fixtureAddress2.has_valid_province = true ∧
      fixtureAddress3.has_valid_province = false :=
  ⟨(has_valid_province_za_rule fixtureAddress2).1 (Or.inr (by decide)),
   (has_valid_province_za_rule fixtureAddress3).2 (by decide) (by decide)⟩

/-- C7: the four branch cases of the LineDetail display. -/
theorem line_detail_display_cases (ld : LineDetail) :
    (ld.line1 = "" → ld.line2 = "" → ld.display = "Not available") ∧
      (ld.line1 = "" → ld.line2 ≠ "" → ld.display = ld.line2) ∧
      (ld.line2 = "" → ld.line1 ≠ "" → ld.display = ld.line1) ∧
      (ld.line1 ≠ "" → ld.line2 ≠ "" →
        ld.display = ld.line1 ++ ", " ++ ld.line2) := by
  unfold LineDetail.display
  refine ⟨fun h1 h2 => ?_, fun h1 h2 => ?_, fun h1 h2 => ?_, fun h1 h2 => ?_⟩ <;>
    simp [h1, h2, NOT_AVAILABLE]

/-- C7 witness: the both-empty case and the both-filled case at concrete
line details. -/
theorem line_detail_display_cases_witness :
    LineDetail.display { line1 := "", line2 := "" } = "Not available" ∧
      LineDetail.display { line1 := "Address 1", line2 := "Line 2" } =
        "Address 1, Line 2" :=
  ⟨(line_detail_display_cases _).1 rfl rfl,
   (line_detail_display_cases _).2.2.2 (by decide) (by decide)⟩

/-- C8: the postal code check accepts exactly the non-empty strings made
only of decimal digits in the sense of the digit class of the pattern, the
Unicode category Nd; in particular 1234 is valid while abcd and a2c4 are
not. -/
theorem postal_code_digits_iff :
    (∀ s : String, Address.is_valid_postal_code s = true ↔
        (s ≠ "" ∧ ∀ c ∈ s.data, isUnicodeDigit c = true)) ∧
      Address.is_valid_postal_code "1234" = true ∧
      Address.is_valid_postal_code "abcd" = false ∧
      Address.is_valid_postal_code "a2c4" = false := by
  refine ⟨fun s => ?_, by decide, by decide, by decide⟩
  unfold Address.is_valid_postal_code
  simp [List.all_eq_true]

/-- C8 witness: the equivalence applied at the concrete string 1234. -/
theorem postal_code_digits_iff_witness :
    Address.is_valid_postal_code "1234" = true :=
  (postal_code_digits_iff.1 "1234").mpr ⟨by decide, by decide⟩

/-- C9: the address display renders the type name, the line detail and the
four remaining fields joined by dashes, with the same substitution function
applied uniformly to city, province, postal code and country, replacing an
empty value by the Not available token. -/
theorem address_display_renders_with_uniform_substitution :
    (∀ a : Address, a.display =
        a.address_type.name ++ ": " ++ a.line_detail.display ++ " - " ++
          Address.str_or a.city_or_town NOT_AVAILABLE ++ " - " ++
          Address.str_or a.province_or_state.name NOT_AVAILABLE ++ " - " ++
          Address.str_or a.postal_code NOT_AVAILABLE ++ " - " ++
          Address.str_or a.country.name NOT_AVAILABLE) ∧
      (∀ s : String, Address.str_or s NOT_AVAILABLE =
        if s = "" then "Not available" else s) := by
  constructor
  · intro a
    have hm : ∀ X : String, " " ++ ("- " ++ X) = " - " ++ X := fun X => rfl
    unfold Address.display
    simp only [String.append_assoc, hm]
  · intro s
    by_cases h : s = ""
    · subst h; rfl
    · rw [if_neg h]
      unfold Address.str_or
      split
      · exact absurd rfl h
      · rfl

/-- C9 witness: the substitution function at the empty string and the full
rendering of the fixture address whose province and line detail are
missing. -/
theorem address_display_renders_witness :
    Address.str_or "" NOT_AVAILABLE =
      (if ("" : String) = "" then "Not available" else "") :=
  address_display_renders_with_uniform_substitution.2 ""

/-- The foldl of validate_addresses with an arbitrary accumulator prefix
appends exactly one formatted line per invalid address, in order. -/
theorem validate_addresses_foldl (addrs : List Address) :
    ∀ acc : List String,
      addrs.foldl
        (fun err_strings addr =>
          let errs := addr.validate
          if !errs.isEmpty then
            err_strings ++
              ["Address for ID: " ++ addr.id ++
                " is invalid. Validation errors: " ++ fmtDebugList errs]
          else err_strings) acc
      = acc ++ addrs.filterMap
          (fun a => if a.validate = [] then none
            else some ("Address for ID: " ++ a.id ++
              " is invalid. Validation errors: " ++ fmtDebugList a.validate)) := by
  induction addrs with
  | nil => intro acc; simp
  | cons x rest ih =>
    intro acc
    rw [List.foldl_cons, List.filterMap_cons, ih]
    cases hv : x.validate with
    | nil => simp [hv]
    | cons y ys => simp [hv, List.append_assoc]

/-- C5: validate_addresses keeps the original order, contributes nothing
for a valid address and exactly one formatted line for an invalid one; an
all-valid collection gives the empty list; on the three fixture addresses
the output is exactly the two expected lines in input order. -/
theorem validate_addresses_formats_invalid_in_order :
    (∀ c : Addresses, c.validate_addresses =
        c.addresses.filterMap
          (fun a => if a.validate = [] then none
            else some ("Address for ID: " ++ a.id ++
              " is invalid. Validation errors: " ++ fmtDebugList a.validate))) ∧
      (∀ c : Addresses, (∀ a ∈ c.addresses, a.validate = []) →
        c.validate_addresses = []) ∧
      Addresses.validate_addresses
          { addresses := [fixtureAddress1, fixtureAddress2, fixtureAddress3] } =
        ["Address for ID: 2 is invalid. Validation errors: [\"You must include valid address details (line 1 and/or 2 must be filled in)\"]",
         "Address for ID: 3 is invalid. Validation errors: [\"You must include a province if your country is ZA\"]"] := by
  have hmain : ∀ c : Addresses, c.validate_addresses =
      c.addresses.filterMap
        (fun a => if a.validate = [] then none
          else some ("Address for ID: " ++ a.id ++
            " is invalid. Validation errors: " ++ fmtDebugList a.validate)) := by
    intro c
    unfold Addresses.validate_addresses
    rw [validate_addresses_foldl c.addresses []]
    simp
  refine ⟨hmain, fun c hall => ?_, ?_⟩
  · rw [hmain c]
    rw [List.filterMap_eq_nil_iff]
    intro a ha
    rw [hall a ha]
    simp
  · rw [hmain]
    decide

/-- C5 witness: a collection holding only the fully valid fixture address
produces the empty output list. -/
theorem validate_addresses_formats_invalid_in_order_witness :
    Addresses.validate_addresses { addresses := [fixtureAddress1] } = [] :=
  validate_addresses_formats_invalid_in_order.2.1
    { addresses := [fixtureAddress1] } (by decide)

/-- C10 witness: the validation list of the second fixture address obeys
the length bound. -/
theorem validate_messages_sublist_witness :
    fixtureAddress2.validate.length ≤ 4 :=
  (validate_messages_sublist fixtureAddress2).2.2

/-- The absolute value of a truncated remainder is the remainder of the
absolute values. -/
theorem natAbs_tmod (a b : Int) :
    (Int.tmod a b).natAbs = a.natAbs % b.natAbs := by
  cases a <;> cases b <;> simp only [Int.tmod, Int.natAbs_neg] <;> rfl

/-- The absolute value of a truncated remainder is below that of a non-zero
divisor. -/
theorem natAbs_tmod_lt (a : Int) {b : Int} (hb : b ≠ 0) :
    (Int.tmod a b).natAbs < b.natAbs := by
  rw [natAbs_tmod]
  exact Nat.mod_lt _ (Int.natAbs_pos.mpr hb)

/-- The loop returns its first operand once the second reaches zero. -/
theorem gcdLoop_zero (a : Int) : gcdLoop a 0 = some a := by
  rw [gcdLoop.eq_def]
  simp

/-- One iteration of the loop away from the panic operands. -/
theorem gcdLoop_step (a b : Int) (h0 : ¬b = 0) (hm : ¬(a = i32Min ∧ b = -1)) :
    gcdLoop a b = gcdLoop b (a.tmod b) := by
  rw [gcdLoop.eq_def, dif_neg h0, dif_neg hm]

/-- The loop panics on the operands i32 MIN and -1. -/
theorem gcdLoop_panic : gcdLoop i32Min (-1) = none := by
  rw [gcdLoop.eq_def, dif_neg (by decide : ¬(-1 : Int) = 0), dif_pos ⟨rfl, rfl⟩]

/-- The loop returns a result on every in-range state other than the two
that lead to the overflowing remainder of i32 MIN by -1. -/
theorem gcdLoop_isSome :
    ∀ (n : Nat) (a b : Int), b.natAbs ≤ n →
      -2147483648 ≤ a → a < 2147483648 → -2147483648 ≤ b → b < 2147483648 →
      ¬(a = i32Min ∧ b = -1) → ¬(a = -1 ∧ b = i32Min) →
      (gcdLoop a b).isSome = true := by
  intro n
  induction n with
  | zero =>
    intro a b hn _ _ _ _ _ _
    have hb : b = 0 := by omega
    subst hb
    rw [gcdLoop_zero]
    rfl
  | succ n ih =>
    intro a b hn ha1 ha2 hb1 hb2 hx1 hx2
    by_cases hb0 : b = 0
    · subst hb0; rw [gcdLoop_zero]; rfl
    · rw [gcdLoop_step a b hb0 hx1]
      have htlt : (Int.tmod a b).natAbs < b.natAbs := natAbs_tmod_lt a hb0
      have htabs : (Int.tmod a b).natAbs = a.natAbs % b.natAbs := natAbs_tmod a b
      refine ih b (a.tmod b) ?_ ?_ ?_ ?_ ?_ ?_ ?_
      · omega
      · omega
      · omega
      · omega
      · omega
      · rintro ⟨hbmin, hmod⟩
        have h1 : (Int.tmod a b).natAbs = 1 := by rw [hmod]; rfl
        have hbabs : b.natAbs = 2147483648 := by rw [hbmin]; rfl
        rw [htabs, hbabs] at h1
        have ha : a.natAbs = 1 := by omega
        have hcase : a = 1 ∨ a = -1 := by omega
        rcases hcase with h | h
        · subst h
          have hnn := Int.tmod_nonneg b (by decide : (0 : Int) ≤ 1)
          omega
        · exact hx2 ⟨h, hbmin⟩
      · rintro ⟨hbneg, hmod⟩
        subst hbneg
        have h2 := natAbs_tmod a (-1)
        rw [hmod] at h2
        rw [show ((-1 : Int)).natAbs = 1 from rfl] at h2
        rw [show i32Min.natAbs = 2147483648 from rfl] at h2
        omega

/-- C3 counterexample: the claim that calculate_gcd is defined on every
pair of i32 inputs fails at the pair of i32 MIN and -1, where the loop
reaches the remainder of i32 MIN by -1 and panics. -/
theorem calculate_gcd_min_neg_one_panics : calculate_gcd i32Min (-1) = none := by
  unfold calculate_gcd
  rw [if_pos (by decide : i32Min < -1)]
  rw [gcdLoop_step _ _ (by decide) (by decide),
    show Int.tmod (-1) i32Min = -1 from by decide]
  exact gcdLoop_panic

/-- C3 amended: calculate_gcd returns a result on every pair of i32 inputs
other than the two orderings of i32 MIN and -1, and the result sign follows
the swap-then-mod loop without normalisation to absolute value, as the
negative result on inputs -4 and -6 shows. -/
theorem calculate_gcd_defined_except_min_neg_one :
    (∀ a b : Int, -2147483648 ≤ a → a < 2147483648 →
        -2147483648 ≤ b → b < 2147483648 →
        ¬(a = i32Min ∧ b = -1) → ¬(a = -1 ∧ b = i32Min) →
        (calculate_gcd a b).isSome = true) ∧
      calculate_gcd (-4) (-6) = some (-2) := by
  constructor
  · intro a b ha1 ha2 hb1 hb2 hx1 hx2
    unfold calculate_gcd
    by_cases hab : a < b
    · rw [if_pos hab]
      exact gcdLoop_isSome a.natAbs b a (le_refl _) hb1 hb2 ha1 ha2
        (fun hk => hx2 ⟨hk.2, hk.1⟩) (fun hk => hx1 ⟨hk.2, hk.1⟩)
    · rw [if_neg hab]
      exact gcdLoop_isSome b.natAbs a b (le_refl _) ha1 ha2 hb1 hb2 hx1 hx2
  · unfold calculate_gcd
    rw [if_neg (by decide : ¬(-4 : Int) < -6)]
    rw [gcdLoop_step _ _ (by decide) (by decide),
      show Int.tmod (-4) (-6) = -4 from by decide]
    rw [gcdLoop_step _ _ (by decide) (by decide),
      show Int.tmod (-6) (-4) = -2 from by decide]
    rw [gcdLoop_step _ _ (by decide) (by decide),
      show Int.tmod (-4) (-2) = 0 from by decide]
    exact gcdLoop_zero _

/-- C3 witness: the totality statement applied at the in-range pair 11 and
22. -/
theorem calculate_gcd_defined_except_min_neg_one_witness :
    (calculate_gcd 11 22).isSome = true :=
  calculate_gcd_defined_except_min_neg_one.1 11 22 (by decide) (by decide)
    (by decide) (by decide) (by decide) (by decide)

/-- The monadic fold of calculate_gcd_array agrees with the explicit
recursion of the spec wording. -/
theorem foldlM_gcd_eq_gcdFoldSpec (l : List Int) :
    ∀ res : Int, List.foldlM calculate_gcd res l = gcdFoldSpec res l := by
  induction l with
  | nil => intro res; rfl
  | cons i rest ih =>
    intro res
    rw [List.foldlM_cons]
    unfold gcdFoldSpec
    cases h : calculate_gcd res i with
    | none => simp [h]
    | some r => simp [h, ih r]

/-- The spec fold on the empty list returns the running result. -/
theorem gcdFoldSpec_nil (res : Int) : gcdFoldSpec res [] = some res := rfl

/-- One step of the spec fold when the gcd step returns a result. -/
theorem gcdFoldSpec_cons_some (res i r : Int) (rest : List Int)
    (h : calculate_gcd res i = some r) :
    gcdFoldSpec res (i :: rest) = gcdFoldSpec r rest := by
  have e : gcdFoldSpec res (i :: rest) =
      match calculate_gcd res i with
      | some r => gcdFoldSpec r rest
      | none => none := rfl
  rw [e, h]

/-- One step of the spec fold when the gcd step panics. -/
theorem gcdFoldSpec_cons_none (res i : Int) (rest : List Int)
    (h : calculate_gcd res i = none) :
    gcdFoldSpec res (i :: rest) = none := by
  have e : gcdFoldSpec res (i :: rest) =
      match calculate_gcd res i with
      | some r => gcdFoldSpec r rest
      | none => none := rfl
  rw [e, h]

/-- C4 counterexample: on the non-empty input of -1 followed by i32 MIN the
fold reaches the gcd of -1 and i32 MIN, whose loop hits the overflowing
remainder of i32 MIN by -1, so the call panics instead of returning a
present result. -/
theorem calculate_gcd_array_panics_on_neg_one_min :
    calculate_gcd_array [-1, i32Min] = none := by
  have e1 : calculate_gcd (-1) (-1) = some (-1) := by
    unfold calculate_gcd
    rw [if_neg (by decide : ¬(-1 : Int) < -1)]
    rw [gcdLoop_step _ _ (by decide) (by decide),
      show Int.tmod (-1) (-1) = 0 from by decide]
    exact gcdLoop_zero _
  have e2 : calculate_gcd (-1) i32Min = none := by
    unfold calculate_gcd
    rw [if_neg (by decide : ¬(-1 : Int) < i32Min)]
    rw [gcdLoop_step _ _ (by decide) (by decide),
      show Int.tmod (-1) i32Min = -1 from by decide]
    exact gcdLoop_panic
  show Option.map some (List.foldlM calculate_gcd (-1) [-1, i32Min]) = none
  rw [foldlM_gcd_eq_gcdFoldSpec]
  rw [gcdFoldSpec_cons_some _ _ _ _ e1, gcdFoldSpec_cons_none _ _ _ e2]
  rfl

/-- C4 amended: calculate_gcd_array signals an absent result exactly on the
empty input; on a non-empty input it folds gcd over all the elements with
the first element as seed and returns the result present whenever no gcd
step panics; on the test input 4, 64, 32, 120 the result is 4. -/
theorem calculate_gcd_array_spec :
    (∀ ints : List Int, calculate_gcd_array ints = some none ↔ ints = []) ∧
      (∀ (x : Int) (rest : List Int),
        calculate_gcd_array (x :: rest) =
          Option.map some (gcdFoldSpec x (x :: rest))) ∧
      calculate_gcd_array [4, 64, 32, 120] = some (some 4) := by
  refine ⟨fun ints => ?_, fun x rest => ?_, ?_⟩
  · cases ints with
    | nil => simp [calculate_gcd_array]
    | cons x rest =>
      show Option.map some (List.foldlM calculate_gcd x (x :: rest)) = some none ↔
        x :: rest = []
      cases hf : List.foldlM calculate_gcd x (x :: rest) <;> simp [hf]
  · show Option.map some (List.foldlM calculate_gcd x (x :: rest)) =
      Option.map some (gcdFoldSpec x (x :: rest))
    rw [foldlM_gcd_eq_gcdFoldSpec]
  · have g1 : calculate_gcd 4 4 = some 4 := by
      unfold calculate_gcd
      rw [if_neg (by decide : ¬(4 : Int) < 4)]
      rw [gcdLoop_step _ _ (by decide) (by decide),
        show Int.tmod 4 4 = 0 from by decide]
      exact gcdLoop_zero _
    have g2 : calculate_gcd 4 64 = some 4 := by
      unfold calculate_gcd
      rw [if_pos (by decide : (4 : Int) < 64)]
      rw [gcdLoop_step _ _ (by decide) (by decide),
        show Int.tmod 64 4 = 0 from by decide]
      exact gcdLoop_zero _
    have g3 : calculate_gcd 4 32 = some 4 := by
      unfold calculate_gcd
      rw [if_pos (by decide : (4 : Int) < 32)]
      rw [gcdLoop_step _ _ (by decide) (by decide),
        show Int.tmod 32 4 = 0 from by decide]
      exact gcdLoop_zero _
    have g4 : calculate_gcd 4 120 = some 4 := by
      unfold calculate_gcd
      rw [if_pos (by decide : (4 : Int) < 120)]
      rw [gcdLoop_step _ _ (by decide) (by decide),
        show Int.tmod 120 4 = 0 from by decide]
      exact gcdLoop_zero _
    show Option.map some (List.foldlM calculate_gcd 4 [4, 64, 32, 120]) =
      some (some 4)
    rw [foldlM_gcd_eq_gcdFoldSpec]
    rw [gcdFoldSpec_cons_some _ _ _ _ g1, gcdFoldSpec_cons_some _ _ _ _ g2,
      gcdFoldSpec_cons_some _ _ _ _ g3, gcdFoldSpec_cons_some _ _ _ _ g4,
      gcdFoldSpec_nil]
    rfl

/-- C4 witness: the empty-input equivalence applied on both sides at
concrete inputs. -/
theorem calculate_gcd_array_spec_witness :
    calculate_gcd_array [] = some none :=
  (calculate_gcd_array_spec.1 []).mpr rfl
